import Mathlib

/-!
# Formal model of the Health Tracking API backend

A shallow embedding of `backend/server.py`: the peptide IU dosing
calculator and the CRUD endpoints for the stored entities, with the
MongoDB collections modelled as Lean lists of stored records, Python
floats as exact rationals, timestamps as naturals, and calendar dates as
integers (ISO-8601 date strings sort exactly like their day ordinals, so
an integer ordinal preserves the store's sort behaviour).

HTTP dispatch and request-body schema validation are performed by the
web framework, which the design treats as an external collaborator; they
are modelled at each endpoint's boundary.  A pydantic `ValidationError`
is modelled as the list of its per-field error messages, and the
handlers' `except ValidationError` branches map it to an
`HTTPException` with client-error status 400, as written in the source.
-/

namespace HealthTrack

/-- `HTTPException(status_code=..., detail=...)` from the source.  The
`detail` string of a validation failure is modelled as the list of the
per-field messages it contains; a plain detail message is a singleton. -/
structure HTTPException where
  status_code : Nat
  detail : List String
deriving DecidableEq

/-- A request rejected by body validation, surfaced as a client error
(status 400) carrying the per-field messages, per the handlers'
`except ValidationError` branches. -/
def validationFailure (msgs : List String) : HTTPException :=
  ⟨400, msgs⟩

/-- Helper for Python `str.title()`: the boolean records whether the
previous character was alphabetic (a letter starting a word is
upper-cased, letters continuing a word are lower-cased). -/
def pyTitleAux : Bool → List Char → List Char
  | _, [] => []
  | prevAlpha, c :: cs =>
      let c2 := if c.isAlpha then (if prevAlpha then c.toLower else c.toUpper) else c
      c2 :: pyTitleAux c.isAlpha cs

/-- Python `str.title()` restricted to the ASCII field names used here. -/
def pyTitle (s : String) : String :=
  ⟨pyTitleAux false s.data⟩

/-- `replace('_', ' ')` on the characters of a field name; the pattern
is a single character, so a character-by-character map is faithful. -/
def underscoreToSpace : List Char → List Char
  | [] => []
  | c :: cs => (if c = ('_') then (' ') else c) :: underscoreToSpace cs

/-- `field_name.replace('_', ' ').title()` from `validate_positive`. -/
def displayFieldName (f : String) : String :=
  pyTitle ⟨underscoreToSpace f.data⟩

/-- One field check of the `validate_positive` validator: a value `v ≤ 0`
for field `f` contributes the message `'{field_name} must be greater
than 0'`; a positive value contributes nothing. -/
def validate_positive (f : String) (v : ℚ) : List String :=
  if v ≤ 0 then [displayFieldName f ++ (" must be greater than 0")] else []

/-- Floor of a rational as an integer (`Int.fdiv` is floor division). -/
def ratFloor (q : ℚ) : ℤ :=
  q.num.fdiv q.den

/-- Round a rational to the nearest integer, ties to even: the rule
Python's builtin `round` applies to the values arising here. -/
def pyRoundInt (q : ℚ) : ℤ :=
  let f := ratFloor q
  let r := q - f
  if r < 1 / 2 then f
  else if 1 / 2 < r then f + 1
  else if f % 2 = 0 then f else f + 1

/-- Python `round(q, n)`: round to `n` decimal places, ties to even. -/
def pyRound (q : ℚ) (n : Nat) : ℚ :=
  (pyRoundInt (q * 10 ^ n) : ℚ) / 10 ^ n

/-- The `PeptideCalculation` input model: the three calculator inputs. -/
structure PeptideCalculation where
  vial_amount_mg : ℚ
  bac_water_ml : ℚ
  dose_mcg : ℚ
deriving DecidableEq

/-- The messages of the `validate_positive` validator applied to the
three fields of `PeptideCalculation`, in field-declaration order, as
pydantic aggregates them into one `ValidationError`. -/
def PeptideCalculation.validationErrors (c : PeptideCalculation) : List String :=
  validate_positive ("vial_amount_mg") c.vial_amount_mg
    ++ validate_positive ("bac_water_ml") c.bac_water_ml
    ++ validate_positive ("dose_mcg") c.dose_mcg

/-- `PeptideCalculation.calculate_iu` from the source:
mg → mcg, concentration, volume, IU, rounded to 2 decimals. -/
def PeptideCalculation.calculate_iu (c : PeptideCalculation) : ℚ :=
  let vial_amount_mcg := c.vial_amount_mg * 1000
  let concentration := vial_amount_mcg / c.bac_water_ml
  let volume_ml := c.dose_mcg / concentration
  let iu := volume_ml * 100
  pyRound iu 2

/-- The `details` bundle returned by the calculator endpoint. -/
structure CalcDetails where
  vial_amount_mcg : ℚ
  concentration_mcg_ml : ℚ
  volume_ml : ℚ
deriving DecidableEq

/-- The response body of `POST /peptides/calculate-iu`. -/
structure CalcResponse where
  iu : ℚ
  details : CalcDetails
deriving DecidableEq

/-- The `calculate_peptide_iu` endpoint: body validation of the
`PeptideCalculation` model (the `validate_positive` checks) precedes any
arithmetic, and a failure is surfaced as a 400 validation error; on
success the IU plus the display details (concentration rounded to 2
decimals, volume to 4) are returned. -/
def calculate_peptide_iu (vial_amount_mg bac_water_ml dose_mcg : ℚ) :
    Except HTTPException CalcResponse :=
  let c : PeptideCalculation := ⟨vial_amount_mg, bac_water_ml, dose_mcg⟩
  if c.validationErrors = [] then
    let iu := c.calculate_iu
    let vial_amount_mcg := vial_amount_mg * 1000
    let concentration_mcg_ml := vial_amount_mcg / bac_water_ml
    let volume_ml := dose_mcg / concentration_mcg_ml
    .ok ⟨iu, ⟨vial_amount_mcg, pyRound concentration_mcg_ml 2, pyRound volume_ml 4⟩⟩
  else
    .error (validationFailure c.validationErrors)

example : (⟨5, 2, 250⟩ : PeptideCalculation).calculate_iu = 10 := by
  norm_num [PeptideCalculation.calculate_iu, pyRound, pyRoundInt, ratFloor]

example : displayFieldName ("vial_amount_mg") = "Vial Amount Mg" := by decide

/-! ## The document store

A MongoDB collection is modelled as a list of stored records in
insertion order: `insert_one` appends, `find_one` returns the first
match, `replace_one` replaces the first match, `delete_one` removes the
first match and reports how many documents matched. -/

/-- `replace_one`: replace the first element satisfying `p` by `new`. -/
def replaceFirst (p : α → Bool) (new : α) : List α → List α
  | [] => []
  | x :: xs => if p x then new :: xs else x :: replaceFirst p new xs

/-- `delete_one`: remove the first element satisfying `p`. -/
def deleteFirst (p : α → Bool) : List α → List α
  | [] => []
  | x :: xs => if p x then xs else x :: deleteFirst p xs

/-! ## Record schemas -/

/-- `BaseDBModel`: server-assigned identifier plus both timestamps.  At
creation pydantic runs the three `default_factory` calls in field
order, so `created_at` and `updated_at` come from two successive clock
reads. -/
structure BaseDBModel where
  id : String
  created_at : Nat
  updated_at : Nat
deriving DecidableEq

/-- `SupplementSchedule`: stored data only, never evaluated. -/
structure SupplementSchedule where
  frequency : String
  times_per_day : Int
  time_of_day : List String
  cycle_weeks_on : Option Int := none
  cycle_weeks_off : Option Int := none
  custom_days : Option (List String) := none
  custom_times : Option (List String) := none
deriving DecidableEq

/-- Stored `BodyComposition` record.  Dates are day ordinals: ISO-8601
date strings compare exactly like the ordinals of the days they name. -/
structure BodyComposition extends BaseDBModel where
  date : Int
  weight : ℚ
  body_fat_percentage : Option ℚ := none
  muscle_mass : Option ℚ := none
  water_percentage : Option ℚ := none
  bone_mass : Option ℚ := none
  bmi : Option ℚ := none
  notes : Option String := none
deriving DecidableEq

/-- `BodyCompositionCreate`, the validated input shape.  An optional
field is `none` when the client's payload omitted it (pydantic "unset")
and `some v` when the payload carried value `v` (`v = none` models an
explicit JSON null); `dict(exclude_unset=True)` keeps exactly the
`some` fields, plain `dict()` collapses `none` to the default null. -/
structure BodyCompositionCreate where
  date : Int
  weight : ℚ
  body_fat_percentage : Option (Option ℚ) := none
  muscle_mass : Option (Option ℚ) := none
  water_percentage : Option (Option ℚ) := none
  bone_mass : Option (Option ℚ) := none
  bmi : Option (Option ℚ) := none
  notes : Option (Option String) := none
deriving DecidableEq

/-- The raw request body of a body-composition create/update before
schema validation: every field may be absent. -/
structure BodyCompositionRaw where
  date : Option Int := none
  weight : Option ℚ := none
  body_fat_percentage : Option (Option ℚ) := none
  muscle_mass : Option (Option ℚ) := none
  water_percentage : Option (Option ℚ) := none
  bone_mass : Option (Option ℚ) := none
  bmi : Option (Option ℚ) := none
  notes : Option (Option String) := none
deriving DecidableEq

/-- The `Field required` messages pydantic reports for the required
fields absent from a raw body-composition payload. -/
def BodyCompositionRaw.missingFieldErrors (raw : BodyCompositionRaw) : List String :=
  (if raw.date.isNone then ["date: Field required"] else [])
    ++ (if raw.weight.isNone then ["weight: Field required"] else [])

/-- Schema validation of a raw payload against `BodyCompositionCreate`:
both required fields must be present; optional fields pass through with
their presence information. -/
def BodyCompositionRaw.parseCreate (raw : BodyCompositionRaw) :
    Except (List String) BodyCompositionCreate :=
  match raw.date, raw.weight with
  | some dt, some w =>
      .ok ⟨dt, w, raw.body_fat_percentage, raw.muscle_mass, raw.water_percentage,
        raw.bone_mass, raw.bmi, raw.notes⟩
  | _, _ => .error raw.missingFieldErrors

/-! ## Body-composition endpoints -/

/-- `create_body_composition`: build the stored record from the full
`data.dict()` (unset optional fields collapse to null), assign the
fresh identifier and both creation-time clock reads, and append it to
the collection. -/
def create_body_composition (coll : List BodyComposition) (freshId : String)
    (tc tu : Nat) (data : BodyCompositionCreate) :
    BodyComposition × List BodyComposition :=
  let r : BodyComposition :=
    { id := freshId, created_at := tc, updated_at := tu
      date := data.date, weight := data.weight
      body_fat_percentage := data.body_fat_percentage.join
      muscle_mass := data.muscle_mass.join
      water_percentage := data.water_percentage.join
      bone_mass := data.bone_mass.join
      bmi := data.bmi.join
      notes := data.notes.join }
  (r, coll ++ [r])

/-- `get_body_compositions`: `find().sort("date", -1).skip(skip).limit(limit)`,
defaults `limit=100`, `skip=0`. -/
def get_body_compositions (coll : List BodyComposition)
    (limit : Nat := 100) (skip : Nat := 0) : List BodyComposition :=
  ((coll.mergeSort fun a b => decide (b.date ≤ a.date)).drop skip).take limit

/-- `get_body_composition`: `find_one` by identifier, 404 when absent. -/
def get_body_composition (coll : List BodyComposition) (composition_id : String) :
    Except HTTPException BodyComposition :=
  match coll.find? (fun r => r.id == composition_id) with
  | none => .error ⟨404, ["Body composition not found"]⟩
  | some r => .ok r

/-- The sparse merge of `update_body_composition`: `setattr` for every
field of `data.dict(exclude_unset=True)`.  The required fields are
always set in an accepted payload; an optional field overwrites only
when present. -/
def BodyComposition.applyUpdate (r : BodyComposition) (data : BodyCompositionCreate) :
    BodyComposition :=
  { r with
    date := data.date
    weight := data.weight
    body_fat_percentage := data.body_fat_percentage.getD r.body_fat_percentage
    muscle_mass := data.muscle_mass.getD r.muscle_mass
    water_percentage := data.water_percentage.getD r.water_percentage
    bone_mass := data.bone_mass.getD r.bone_mass
    bmi := data.bmi.getD r.bmi
    notes := data.notes.getD r.notes }

/-- `update_body_composition`: look up the record (404 when absent),
sparse-merge the payload onto it, refresh `updated_at` with the current
clock read, and `replace_one` the stored document. -/
def update_body_composition (coll : List BodyComposition) (composition_id : String)
    (data : BodyCompositionCreate) (now : Nat) :
    Except HTTPException (BodyComposition × List BodyComposition) :=
  match coll.find? (fun r => r.id == composition_id) with
  | none => .error ⟨404, ["Body composition not found"]⟩
  | some r =>
      let updated := { r.applyUpdate data with updated_at := now }
      .ok (updated, replaceFirst (fun x => x.id == composition_id) updated coll)

/-- The `update_body_composition` endpoint as dispatched: the request
body is validated against the full `BodyCompositionCreate` shape before
the handler (and hence the lookup) runs. -/
def update_body_composition_endpoint (coll : List BodyComposition)
    (composition_id : String) (raw : BodyCompositionRaw) (now : Nat) :
    Except HTTPException (BodyComposition × List BodyComposition) :=
  match raw.parseCreate with
  | .error msgs => .error (validationFailure msgs)
  | .ok data => update_body_composition coll composition_id data now

/-- `delete_body_composition`: `delete_one` by identifier; zero matched
documents is a 404, otherwise the acknowledgment message. -/
def delete_body_composition (coll : List BodyComposition) (composition_id : String) :
    Except HTTPException (String × List BodyComposition) :=
  if coll.any (fun r => r.id == composition_id) then
    .ok ("Body composition deleted successfully",
      deleteFirst (fun r => r.id == composition_id) coll)
  else
    .error ⟨404, ["Body composition not found"]⟩

/-! ## Supplement endpoints

`HealthMarker` and `BodyMeasurement` follow the body-composition code
verbatim (same merge, same timestamps, same date-descending listing,
same 404s) and are not repeated here. -/

/-- Stored `Supplement` record. -/
structure Supplement extends BaseDBModel where
  name : String
  dosage : String
  unit : String
  schedule : SupplementSchedule
  notes : Option String := none
  start_date : Option Int := none
  end_date : Option Int := none
deriving DecidableEq

/-- `SupplementCreate`, the validated input shape, with pydantic
set-vs-unset presence on the optional fields as in
`BodyCompositionCreate`. -/
structure SupplementCreate where
  name : String
  dosage : String
  unit : String
  schedule : SupplementSchedule
  notes : Option (Option String) := none
  start_date : Option (Option Int) := none
  end_date : Option (Option Int) := none
deriving DecidableEq

/-- `create_supplement`: stored record from the full `data.dict()`. -/
def create_supplement (coll : List Supplement) (freshId : String)
    (tc tu : Nat) (data : SupplementCreate) : Supplement × List Supplement :=
  let r : Supplement :=
    { id := freshId, created_at := tc, updated_at := tu
      name := data.name, dosage := data.dosage, unit := data.unit
      schedule := data.schedule
      notes := data.notes.join
      start_date := data.start_date.join
      end_date := data.end_date.join }
  (r, coll ++ [r])

/-- `get_supplements`: `find().sort("name", 1).skip(skip).limit(limit)`,
defaults `limit=100`, `skip=0`; names sort ascending byte-wise, which
Lean's string order matches on the ASCII names stored here. -/
def get_supplements (coll : List Supplement)
    (limit : Nat := 100) (skip : Nat := 0) : List Supplement :=
  ((coll.mergeSort fun a b => decide (a.name ≤ b.name)).drop skip).take limit

/-- `get_supplement`: `find_one` by identifier, 404 when absent. -/
def get_supplement (coll : List Supplement) (supplement_id : String) :
    Except HTTPException Supplement :=
  match coll.find? (fun r => r.id == supplement_id) with
  | none => .error ⟨404, ["Supplement not found"]⟩
  | some r => .ok r

/-- The sparse merge of `update_supplement`. -/
def Supplement.applyUpdate (r : Supplement) (data : SupplementCreate) : Supplement :=
  { r with
    name := data.name
    dosage := data.dosage
    unit := data.unit
    schedule := data.schedule
    notes := data.notes.getD r.notes
    start_date := data.start_date.getD r.start_date
    end_date := data.end_date.getD r.end_date }

/-- `update_supplement`: look up (404 when absent), sparse-merge,
refresh `updated_at`, `replace_one`. -/
def update_supplement (coll : List Supplement) (supplement_id : String)
    (data : SupplementCreate) (now : Nat) :
    Except HTTPException (Supplement × List Supplement) :=
  match coll.find? (fun r => r.id == supplement_id) with
  | none => .error ⟨404, ["Supplement not found"]⟩
  | some r =>
      let updated := { r.applyUpdate data with updated_at := now }
      .ok (updated, replaceFirst (fun x => x.id == supplement_id) updated coll)

/-- `delete_supplement`: `delete_one`; zero matches is a 404. -/
def delete_supplement (coll : List Supplement) (supplement_id : String) :
    Except HTTPException (String × List Supplement) :=
  if coll.any (fun r => r.id == supplement_id) then
    .ok ("Supplement deleted successfully",
      deleteFirst (fun r => r.id == supplement_id) coll)
  else
    .error ⟨404, ["Supplement not found"]⟩

/-! ## Peptide endpoints -/

/-- Stored `Peptide` record; `calculated_iu` is derived server-side. -/
structure Peptide extends BaseDBModel where
  name : String
  vial_amount_mg : ℚ
  bac_water_ml : ℚ
  dose_mcg : ℚ
  injection_needle_size : String
  calculated_iu : ℚ
  schedule : SupplementSchedule
  notes : Option String := none
  start_date : Option Int := none
  end_date : Option Int := none
deriving DecidableEq

/-- `PeptideCreate`, the validated input shape: the three numeric
sources of `calculated_iu` are required and have passed
`validate_positive`; there is no `calculated_iu` field a client could
set. -/
structure PeptideCreate where
  name : String
  vial_amount_mg : ℚ
  bac_water_ml : ℚ
  dose_mcg : ℚ
  injection_needle_size : String
  schedule : SupplementSchedule
  notes : Option (Option String) := none
  start_date : Option (Option Int) := none
  end_date : Option (Option Int) := none
deriving DecidableEq

/-- The raw request body of a peptide create/update before schema
validation: every field may be absent. -/
structure PeptideCreateRaw where
  name : Option String := none
  vial_amount_mg : Option ℚ := none
  bac_water_ml : Option ℚ := none
  dose_mcg : Option ℚ := none
  injection_needle_size : Option String := none
  schedule : Option SupplementSchedule := none
  notes : Option (Option String) := none
  start_date : Option (Option Int) := none
  end_date : Option (Option Int) := none
deriving DecidableEq

/-- The `Field required` messages for the required `PeptideCreate`
fields absent from a raw payload, in field-declaration order. -/
def PeptideCreateRaw.missingFieldErrors (raw : PeptideCreateRaw) : List String :=
  (if raw.name.isNone then ["name: Field required"] else [])
    ++ (if raw.vial_amount_mg.isNone then ["vial_amount_mg: Field required"] else [])
    ++ (if raw.bac_water_ml.isNone then ["bac_water_ml: Field required"] else [])
    ++ (if raw.dose_mcg.isNone then ["dose_mcg: Field required"] else [])
    ++ (if raw.injection_needle_size.isNone then ["injection_needle_size: Field required"] else [])
    ++ (if raw.schedule.isNone then ["schedule: Field required"] else [])

/-- Schema validation of a raw payload against `PeptideCreate`: all six
required fields must be present and the numeric triple must pass
`validate_positive`.  (pydantic aggregates presence and value errors
into one `ValidationError`; keeping the missing-field messages whenever
a required field is absent regroups the messages but leaves the
accept/reject boundary identical.) -/
def PeptideCreateRaw.parseCreate (raw : PeptideCreateRaw) :
    Except (List String) PeptideCreate :=
  match raw.name, raw.vial_amount_mg, raw.bac_water_ml, raw.dose_mcg,
      raw.injection_needle_size, raw.schedule with
  | some n, some v, some b, some d, some needle, some sched =>
      let c : PeptideCalculation := ⟨v, b, d⟩
      if c.validationErrors = [] then
        .ok ⟨n, v, b, d, needle, sched, raw.notes, raw.start_date, raw.end_date⟩
      else
        .error c.validationErrors
  | _, _, _, _, _, _ => .error raw.missingFieldErrors

/-- `create_peptide`: re-validate the numeric triple by constructing a
`PeptideCalculation` (a `ValidationError` is caught and mapped to 400),
compute `calculated_iu`, and store the record built from `data.dict()`
plus the computed value. -/
def create_peptide (coll : List Peptide) (freshId : String) (tc tu : Nat)
    (data : PeptideCreate) : Except HTTPException (Peptide × List Peptide) :=
  let c : PeptideCalculation := ⟨data.vial_amount_mg, data.bac_water_ml, data.dose_mcg⟩
  if c.validationErrors = [] then
    let calculated_iu := c.calculate_iu
    let p : Peptide :=
      { id := freshId, created_at := tc, updated_at := tu
        name := data.name
        vial_amount_mg := data.vial_amount_mg
        bac_water_ml := data.bac_water_ml
        dose_mcg := data.dose_mcg
        injection_needle_size := data.injection_needle_size
        calculated_iu := calculated_iu
        schedule := data.schedule
        notes := data.notes.join
        start_date := data.start_date.join
        end_date := data.end_date.join }
    .ok (p, coll ++ [p])
  else
    .error (validationFailure c.validationErrors)

/-- `get_peptides`: `find().sort("name", 1).skip(skip).limit(limit)`. -/
def get_peptides (coll : List Peptide)
    (limit : Nat := 100) (skip : Nat := 0) : List Peptide :=
  ((coll.mergeSort fun a b => decide (a.name ≤ b.name)).drop skip).take limit

/-- `get_peptide`: `find_one` by identifier, 404 when absent. -/
def get_peptide (coll : List Peptide) (peptide_id : String) :
    Except HTTPException Peptide :=
  match coll.find? (fun r => r.id == peptide_id) with
  | none => .error ⟨404, ["Peptide not found"]⟩
  | some r => .ok r

/-- The sparse merge of `update_peptide` over the payload fields
(`calculated_iu` is not a payload field and is not touched here). -/
def Peptide.applyUpdate (r : Peptide) (data : PeptideCreate) : Peptide :=
  { r with
    name := data.name
    vial_amount_mg := data.vial_amount_mg
    bac_water_ml := data.bac_water_ml
    dose_mcg := data.dose_mcg
    injection_needle_size := data.injection_needle_size
    schedule := data.schedule
    notes := data.notes.getD r.notes
    start_date := data.start_date.getD r.start_date
    end_date := data.end_date.getD r.end_date }

/-- `update_peptide`: look up (404 when absent), re-validate the triple
by constructing a `PeptideCalculation` (here *not* inside a
`try/except`, so a `ValidationError` would escape as a server fault,
status 500 — unreachable for payloads that passed `PeptideCreate`
validation), recompute `calculated_iu` from the payload's triple even
when the client did not change it, sparse-merge, overwrite
`calculated_iu` and `updated_at`, and `replace_one`. -/
def update_peptide (coll : List Peptide) (peptide_id : String)
    (data : PeptideCreate) (now : Nat) :
    Except HTTPException (Peptide × List Peptide) :=
  match coll.find? (fun r => r.id == peptide_id) with
  | none => .error ⟨404, ["Peptide not found"]⟩
  | some p =>
      let c : PeptideCalculation := ⟨data.vial_amount_mg, data.bac_water_ml, data.dose_mcg⟩
      if c.validationErrors = [] then
        let calculated_iu := c.calculate_iu
        let updated :=
          { p.applyUpdate data with calculated_iu := calculated_iu, updated_at := now }
        .ok (updated, replaceFirst (fun x => x.id == peptide_id) updated coll)
      else
        .error ⟨500, c.validationErrors⟩

/-- The `update_peptide` endpoint as dispatched: the request body is
validated against the full `PeptideCreate` shape before the handler
(and hence the lookup) runs. -/
def update_peptide_endpoint (coll : List Peptide) (peptide_id : String)
    (raw : PeptideCreateRaw) (now : Nat) :
    Except HTTPException (Peptide × List Peptide) :=
  match raw.parseCreate with
  | .error msgs => .error (validationFailure msgs)
  | .ok data => update_peptide coll peptide_id data now

/-- `delete_peptide`: `delete_one`; zero matches is a 404. -/
def delete_peptide (coll : List Peptide) (peptide_id : String) :
    Except HTTPException (String × List Peptide) :=
  if coll.any (fun r => r.id == peptide_id) then
    .ok ("Peptide deleted successfully",
      deleteFirst (fun r => r.id == peptide_id) coll)
  else
    .error ⟨404, ["Peptide not found"]⟩

/-! ## Sample data (mirroring the repository's API test payloads) -/

/-- A daily schedule like the one in the repository's API tests. -/
def sampleSchedule : SupplementSchedule :=
  { frequency := "daily", times_per_day := 1, time_of_day := ["morning"] }

/-- A body-composition create payload. -/
def sampleBCCreate : BodyCompositionCreate :=
  { date := 739617, weight := 180, notes := some (some ("Test entry")) }

/-- A stored body-composition record. -/
def sampleBC : BodyComposition :=
  { id := "b1", created_at := 0, updated_at := 0, date := 739617, weight := 180 }

/-- A supplement create payload. -/
def sampleSupplementCreate : SupplementCreate :=
  { name := "Test Vitamin D", dosage := "5000", unit := "IU", schedule := sampleSchedule }

/-- A stored supplement record. -/
def sampleSupplement : Supplement :=
  { id := "s1", created_at := 0, updated_at := 0
    name := "Test Vitamin D", dosage := "5000", unit := "IU", schedule := sampleSchedule }

/-- A peptide create payload with the calculator example's triple. -/
def samplePeptideCreate : PeptideCreate :=
  { name := "Test BPC-157", vial_amount_mg := 5, bac_water_ml := 2, dose_mcg := 250
    injection_needle_size := "30G", schedule := sampleSchedule }

/-- The stored peptide record `create_peptide` builds from
`samplePeptideCreate` at identifier `p1` and clock reads `0`, `0`. -/
def samplePeptide : Peptide :=
  { id := "p1", created_at := 0, updated_at := 0
    name := "Test BPC-157", vial_amount_mg := 5, bac_water_ml := 2, dose_mcg := 250
    injection_needle_size := "30G"
    calculated_iu := (⟨5, 2, 250⟩ : PeptideCalculation).calculate_iu
    schedule := sampleSchedule }

/-- The stored record after `update_peptide` re-sends
`samplePeptideCreate` to `samplePeptide` at clock read `1`. -/
def samplePeptideUpdated : Peptide :=
  { samplePeptide with updated_at := 1 }

/-- The stored record `create_body_composition` builds from
`sampleBCCreate` at identifier `b2` and clock reads `3`, `4`. -/
def sampleBCStored : BodyComposition :=
  { id := "b2", created_at := 3, updated_at := 4
    date := 739617, weight := 180, notes := some ("Test entry") }

/-- The stored record after `update_body_composition` applies
`sampleBCCreate` to `sampleBC` at clock read `7`. -/
def sampleBCUpdated : BodyComposition :=
  { sampleBC.applyUpdate sampleBCCreate with updated_at := 7 }

/-- A raw body-composition payload missing the required `date`. -/
def rawMissingDate : BodyCompositionRaw :=
  { weight := some 180 }

/-- A raw body-composition payload carrying both required fields. -/
def sampleBCRawFull : BodyCompositionRaw :=
  { date := some 739617, weight := some 180 }

/-- The payload `sampleBCRawFull` validates to. -/
def sampleBCParsedCreate : BodyCompositionCreate :=
  { date := 739617, weight := 180 }

/-- A raw peptide payload missing the required `vial_amount_mg`. -/
def rawPeptideMissingVial : PeptideCreateRaw :=
  { name := some ("X") }

/-! ## Helper lemmas about the store model -/

/-- `find_one` after an insert: appending a matching document to a
collection with no match makes `find?` return it. -/
theorem find?_append_singleton {α} (p : α → Bool) :
    ∀ (l : List α) (r : α), (∀ x ∈ l, p x = false) → p r = true →
      (l ++ [r]).find? p = some r := by
  intro l r hl hr
  induction l with
  | nil => simp [List.find?, hr]
  | cons a l ih =>
      have ha : p a = false := hl a (by simp)
      simp only [List.cons_append, List.find?, ha]
      exact ih fun x hx => hl x (by simp [hx])

/-- If the mapped keys of a list are pairwise distinct and some element
has key `v`, then after `deleteFirst` on that key no element has it. -/
theorem deleteFirst_eradicates {α β} [DecidableEq β] (f : α → β) (v : β) :
    ∀ l : List α, (l.map f).Nodup → ∀ x ∈ l, f x = v →
      ∀ y ∈ deleteFirst (fun r => f r == v) l, f y ≠ v := by
  intro l
  induction l with
  | nil => simp
  | cons a l ih =>
      intro hnd x hx hfx y hy
      rw [List.map_cons, List.nodup_cons] at hnd
      by_cases ha : f a = v
      · simp only [deleteFirst, ha, beq_self_eq_true, if_pos] at hy
        intro hfy
        exact hnd.1 (by rw [ha, ← hfy]; exact List.mem_map_of_mem f hy)
      · have hxl : x ∈ l := by
          rcases List.mem_cons.1 hx with h | h
          · exact absurd (h ▸ hfx) ha
          · exact h
        simp only [deleteFirst, beq_iff_eq, ha, if_false, List.mem_cons] at hy
        rcases hy with h | hy
        · exact fun hv => ha (h ▸ hv)
        · exact ih hnd.2 x hxl hfx y hy

/-- `replace_one` stores the replacement document whenever the filter
matched something. -/
theorem mem_replaceFirst {α} (p : α → Bool) (new : α) :
    ∀ l : List α, (∃ x, l.find? p = some x) → new ∈ replaceFirst p new l := by
  intro l
  induction l with
  | nil => rintro ⟨x, hx⟩; simp [List.find?] at hx
  | cons a l ih =>
      rintro ⟨x, hx⟩
      by_cases ha : p a
      · simp [replaceFirst, ha]
      · rw [List.find?_cons_of_neg _ (by simp [ha])] at hx
        simp only [replaceFirst, ha, Bool.false_eq_true, if_false, List.mem_cons]
        exact Or.inr (ih ⟨x, hx⟩)

/-- A paginated listing of a collection sorted by a transitive total
comparison is itself sorted by it: `skip`/`limit` take a contiguous
sublist of the sorted sequence. -/
theorem pairwise_sorted_paginated {α} (le : α → α → Bool)
    (trans : ∀ a b c, le a b → le b c → le a c)
    (total : ∀ a b, le a b || le b a) (coll : List α) (limit skip : Nat) :
    (((coll.mergeSort le).drop skip).take limit).Pairwise (fun a b => le a b = true) := by
  have hs : (coll.mergeSort le).Pairwise (fun a b => le a b = true) := by
    simpa using List.sorted_mergeSort trans total coll
  exact hs.sublist ((List.take_sublist _ _).trans (List.drop_sublist _ _))

/-- `find_one` right after an insert whose identifier was fresh returns
the inserted body-composition document. -/
theorem get_bc_append (coll : List BodyComposition) (r : BodyComposition)
    (hfresh : ∀ x ∈ coll, x.id ≠ r.id) :
    get_body_composition (coll ++ [r]) r.id = .ok r := by
  simp only [get_body_composition]
  rw [find?_append_singleton _ coll r (fun x hx => by simpa using hfresh x hx) (by simp)]

/-! ## Claim theorems -/

/-- C2: for strictly positive inputs the IU calculation is
`vial_amount_mcg = vial_amount_mg * 1000`, `concentration =
vial_amount_mcg / bac_water_ml`, `volume_ml = dose_mcg / concentration`,
and the result is `volume_ml * 100` rounded to two decimals under the
one rounding rule `pyRound` (ties to even); in particular the inputs
`5, 2, 250` give `iu = 10` with details `vial_amount_mcg = 5000`,
`concentration_mcg_ml = 2500`, `volume_ml = 0.1`. -/
theorem calculate_iu_spec (v b d : ℚ) (_hv : 0 < v) (_hb : 0 < b) (_hd : 0 < d) :
    (⟨v, b, d⟩ : PeptideCalculation).calculate_iu
        = pyRound (d / (v * 1000 / b) * 100) 2
    ∧ (⟨5, 2, 250⟩ : PeptideCalculation).calculate_iu = 10
    ∧ calculate_peptide_iu 5 2 250 = .ok ⟨10, ⟨5000, 2500, 1 / 10⟩⟩ := by
  refine ⟨rfl, ?_, ?_⟩
  · norm_num [PeptideCalculation.calculate_iu, pyRound, pyRoundInt, ratFloor]
  · have hval : (⟨5, 2, 250⟩ : PeptideCalculation).validationErrors = [] := by
      norm_num [PeptideCalculation.validationErrors, validate_positive]
    simp only [calculate_peptide_iu, hval, if_pos]
    norm_num [PeptideCalculation.calculate_iu, pyRound, pyRoundInt, ratFloor]

/-- Witness for C2 at the calculator example's inputs. -/
theorem calculate_iu_spec_witness :
    (⟨5, 2, 250⟩ : PeptideCalculation).calculate_iu
        = pyRound (250 / ((5 : ℚ) * 1000 / 2) * 100) 2
    ∧ (⟨5, 2, 250⟩ : PeptideCalculation).calculate_iu = 10
    ∧ calculate_peptide_iu 5 2 250 = .ok ⟨10, ⟨5000, 2500, 1 / 10⟩⟩ :=
  calculate_iu_spec 5 2 250 (by decide) (by decide) (by decide)

/-- C3: a calculator request with a zero or negative input is rejected
as a 400 validation failure whose messages name exactly the offending
fields (the body never reaches the arithmetic: the rejection carries no
computed value, only the `validate_positive` messages), while all
strictly positive inputs succeed. -/
theorem calculate_iu_endpoint_validation (v b d : ℚ) :
    (¬(0 < v ∧ 0 < b ∧ 0 < d) →
        calculate_peptide_iu v b d
            = .error ⟨400, (⟨v, b, d⟩ : PeptideCalculation).validationErrors⟩
      ∧ (⟨v, b, d⟩ : PeptideCalculation).validationErrors ≠ []
      ∧ (("Vial Amount Mg must be greater than 0")
            ∈ (⟨v, b, d⟩ : PeptideCalculation).validationErrors ↔ v ≤ 0)
      ∧ (("Bac Water Ml must be greater than 0")
            ∈ (⟨v, b, d⟩ : PeptideCalculation).validationErrors ↔ b ≤ 0)
      ∧ (("Dose Mcg must be greater than 0")
            ∈ (⟨v, b, d⟩ : PeptideCalculation).validationErrors ↔ d ≤ 0))
    ∧ (0 < v ∧ 0 < b ∧ 0 < d → ∃ r, calculate_peptide_iu v b d = .ok r) := by
  have e1 : displayFieldName ("vial_amount_mg") ++ (" must be greater than 0")
      = "Vial Amount Mg must be greater than 0" := by decide
  have e2 : displayFieldName ("bac_water_ml") ++ (" must be greater than 0")
      = "Bac Water Ml must be greater than 0" := by decide
  have e3 : displayFieldName ("dose_mcg") ++ (" must be greater than 0")
      = "Dose Mcg must be greater than 0" := by decide
  constructor
  · intro hneg
    have hcase : v ≤ 0 ∨ b ≤ 0 ∨ d ≤ 0 := by
      by_contra hc
      push_neg at hc
      exact hneg ⟨hc.1, hc.2.1, hc.2.2⟩
    have hne : (⟨v, b, d⟩ : PeptideCalculation).validationErrors ≠ [] := by
      simp only [PeptideCalculation.validationErrors, validate_positive]
      rcases hcase with h | h | h <;> simp [h]
    refine ⟨?_, hne, ?_, ?_, ?_⟩
    · simp only [calculate_peptide_iu]
      rw [if_neg hne]
      rfl
    all_goals
      simp only [PeptideCalculation.validationErrors, validate_positive, e1, e2, e3]
      by_cases h1 : v ≤ 0 <;> by_cases h2 : b ≤ 0 <;> by_cases h3 : d ≤ 0 <;>
        simp [h1, h2, h3]
  · rintro ⟨hv, hb, hd⟩
    have hz : (⟨v, b, d⟩ : PeptideCalculation).validationErrors = [] := by
      simp [PeptideCalculation.validationErrors, validate_positive,
        not_le.2 hv, not_le.2 hb, not_le.2 hd]
    exact ⟨_, by simp only [calculate_peptide_iu]; rw [if_pos hz]⟩

/-- Witness for C3: the rejection at `vial_amount_mg = 0` and the
success at the calculator example's inputs. -/
theorem calculate_iu_endpoint_validation_witness :
    (calculate_peptide_iu 0 2 250
          = .error ⟨400, (⟨0, 2, 250⟩ : PeptideCalculation).validationErrors⟩
      ∧ (⟨0, 2, 250⟩ : PeptideCalculation).validationErrors ≠ []
      ∧ (("Vial Amount Mg must be greater than 0")
            ∈ (⟨0, 2, 250⟩ : PeptideCalculation).validationErrors ↔ (0 : ℚ) ≤ 0)
      ∧ (("Bac Water Ml must be greater than 0")
            ∈ (⟨0, 2, 250⟩ : PeptideCalculation).validationErrors ↔ (2 : ℚ) ≤ 0)
      ∧ (("Dose Mcg must be greater than 0")
            ∈ (⟨0, 2, 250⟩ : PeptideCalculation).validationErrors ↔ (250 : ℚ) ≤ 0))
    ∧ (∃ r, calculate_peptide_iu 5 2 250 = .ok r) :=
  ⟨(calculate_iu_endpoint_validation 0 2 250).1 (by decide),
   (calculate_iu_endpoint_validation 5 2 250).2 (by decide)⟩

/-- C1: every stored Peptide satisfies the derived-field law — after a
successful create and after every successful update the stored
`calculated_iu` equals the IU calculation applied to the record's own
currently-stored `vial_amount_mg`/`bac_water_ml`/`dose_mcg` triple (the
`PeptideCreate` payload shape has no `calculated_iu` field, so the
value can never come from the client). -/
theorem peptide_calculated_iu_invariant :
    (∀ (coll : List Peptide) (freshId : String) (tc tu : Nat) (data : PeptideCreate)
        (p : Peptide) (coll2 : List Peptide),
        create_peptide coll freshId tc tu data = .ok (p, coll2) →
          p.calculated_iu
              = (⟨p.vial_amount_mg, p.bac_water_ml, p.dose_mcg⟩ :
                  PeptideCalculation).calculate_iu
            ∧ p ∈ coll2)
    ∧ (∀ (coll : List Peptide) (peptide_id : String) (data : PeptideCreate) (now : Nat)
        (updated : Peptide) (coll2 : List Peptide),
        update_peptide coll peptide_id data now = .ok (updated, coll2) →
          updated.calculated_iu
              = (⟨updated.vial_amount_mg, updated.bac_water_ml, updated.dose_mcg⟩ :
                  PeptideCalculation).calculate_iu
            ∧ updated ∈ coll2) := by
  constructor
  · intro coll freshId tc tu data p coll2 h
    simp only [create_peptide] at h
    by_cases hv : (⟨data.vial_amount_mg, data.bac_water_ml, data.dose_mcg⟩ :
        PeptideCalculation).validationErrors = []
    · rw [if_pos hv] at h
      obtain ⟨hp, hc⟩ := by simpa using h
      subst hp
      subst hc
      exact ⟨rfl, by simp⟩
    · rw [if_neg hv] at h
      exact absurd h (by simp)
  · intro coll peptide_id data now updated coll2 h
    cases hfind : coll.find? (fun r => r.id == peptide_id) with
    | none => simp [update_peptide, hfind] at h
    | some p0 =>
        simp only [update_peptide, hfind] at h
        by_cases hv : (⟨data.vial_amount_mg, data.bac_water_ml, data.dose_mcg⟩ :
            PeptideCalculation).validationErrors = []
        · rw [if_pos hv] at h
          obtain ⟨hp, hc⟩ := by simpa using h
          subst hp
          subst hc
          exact ⟨rfl, mem_replaceFirst _ _ coll ⟨p0, hfind⟩⟩
        · rw [if_neg hv] at h
          exact absurd h (by simp)

/-- Witness for C1: the invariant at a freshly created peptide and at
the record a successful update stores. -/
theorem peptide_calculated_iu_invariant_witness :
    (samplePeptide.calculated_iu
        = (⟨samplePeptide.vial_amount_mg, samplePeptide.bac_water_ml,
            samplePeptide.dose_mcg⟩ : PeptideCalculation).calculate_iu
      ∧ samplePeptide ∈ [samplePeptide])
    ∧ (samplePeptideUpdated.calculated_iu
        = (⟨samplePeptideUpdated.vial_amount_mg, samplePeptideUpdated.bac_water_ml,
            samplePeptideUpdated.dose_mcg⟩ : PeptideCalculation).calculate_iu
      ∧ samplePeptideUpdated ∈ [samplePeptideUpdated]) :=
  ⟨peptide_calculated_iu_invariant.1 [] ("p1") 0 0 samplePeptideCreate
      samplePeptide [samplePeptide] rfl,
   peptide_calculated_iu_invariant.2 [samplePeptide] ("p1") samplePeptideCreate 1
      samplePeptideUpdated [samplePeptideUpdated] rfl⟩

/-- C4: a successful update overwrites exactly the payload's fields —
the required fields (always present in an accepted payload) and every
optional field the client set — leaves each omitted optional field at
its prior stored value, keeps `id` and `created_at`, and stamps
`updated_at` with the current clock read, which is ≥ the previous
`updated_at` whenever the clock is monotone; shown for the two cited
entity types, body composition and supplement. -/
theorem sparse_merge_law :
    (∀ (coll : List BodyComposition) (composition_id : String)
        (data : BodyCompositionCreate) (now : Nat) (old : BodyComposition),
        coll.find? (fun r => r.id == composition_id) = some old →
        old.updated_at ≤ now →
        ∃ updated coll2,
          update_body_composition coll composition_id data now = .ok (updated, coll2)
          ∧ updated.date = data.date
          ∧ updated.weight = data.weight
          ∧ updated.body_fat_percentage = data.body_fat_percentage.getD old.body_fat_percentage
          ∧ updated.muscle_mass = data.muscle_mass.getD old.muscle_mass
          ∧ updated.water_percentage = data.water_percentage.getD old.water_percentage
          ∧ updated.bone_mass = data.bone_mass.getD old.bone_mass
          ∧ updated.bmi = data.bmi.getD old.bmi
          ∧ updated.notes = data.notes.getD old.notes
          ∧ updated.id = old.id
          ∧ updated.created_at = old.created_at
          ∧ updated.updated_at = now
          ∧ old.updated_at ≤ updated.updated_at)
    ∧ (∀ (coll : List Supplement) (supplement_id : String)
        (data : SupplementCreate) (now : Nat) (old : Supplement),
        coll.find? (fun r => r.id == supplement_id) = some old →
        old.updated_at ≤ now →
        ∃ updated coll2,
          update_supplement coll supplement_id data now = .ok (updated, coll2)
          ∧ updated.name = data.name
          ∧ updated.dosage = data.dosage
          ∧ updated.unit = data.unit
          ∧ updated.schedule = data.schedule
          ∧ updated.notes = data.notes.getD old.notes
          ∧ updated.start_date = data.start_date.getD old.start_date
          ∧ updated.end_date = data.end_date.getD old.end_date
          ∧ updated.id = old.id
          ∧ updated.created_at = old.created_at
          ∧ updated.updated_at = now
          ∧ old.updated_at ≤ updated.updated_at) := by
  constructor
  · intro coll composition_id data now old hfind hmono
    simp only [update_body_composition, hfind]
    exact ⟨_, _, rfl, rfl, rfl, rfl, rfl, rfl, rfl, rfl, rfl, rfl, rfl, rfl, hmono⟩
  · intro coll supplement_id data now old hfind hmono
    simp only [update_supplement, hfind]
    exact ⟨_, _, rfl, rfl, rfl, rfl, rfl, rfl, rfl, rfl, rfl, rfl, rfl, hmono⟩

/-- Witness for C4 at one-record collections. -/
theorem sparse_merge_law_witness :
    (∃ updated coll2,
        update_body_composition [sampleBC] ("b1") sampleBCCreate 5 = .ok (updated, coll2)
        ∧ updated.date = sampleBCCreate.date
        ∧ updated.weight = sampleBCCreate.weight
        ∧ updated.body_fat_percentage
            = sampleBCCreate.body_fat_percentage.getD sampleBC.body_fat_percentage
        ∧ updated.muscle_mass = sampleBCCreate.muscle_mass.getD sampleBC.muscle_mass
        ∧ updated.water_percentage
            = sampleBCCreate.water_percentage.getD sampleBC.water_percentage
        ∧ updated.bone_mass = sampleBCCreate.bone_mass.getD sampleBC.bone_mass
        ∧ updated.bmi = sampleBCCreate.bmi.getD sampleBC.bmi
        ∧ updated.notes = sampleBCCreate.notes.getD sampleBC.notes
        ∧ updated.id = sampleBC.id
        ∧ updated.created_at = sampleBC.created_at
        ∧ updated.updated_at = 5
        ∧ sampleBC.updated_at ≤ updated.updated_at)
    ∧ (∃ updated coll2,
        update_supplement [sampleSupplement] ("s1") sampleSupplementCreate 5
            = .ok (updated, coll2)
        ∧ updated.name = sampleSupplementCreate.name
        ∧ updated.dosage = sampleSupplementCreate.dosage
        ∧ updated.unit = sampleSupplementCreate.unit
        ∧ updated.schedule = sampleSupplementCreate.schedule
        ∧ updated.notes = sampleSupplementCreate.notes.getD sampleSupplement.notes
        ∧ updated.start_date
            = sampleSupplementCreate.start_date.getD sampleSupplement.start_date
        ∧ updated.end_date = sampleSupplementCreate.end_date.getD sampleSupplement.end_date
        ∧ updated.id = sampleSupplement.id
        ∧ updated.created_at = sampleSupplement.created_at
        ∧ updated.updated_at = 5
        ∧ sampleSupplement.updated_at ≤ updated.updated_at) :=
  ⟨sparse_merge_law.1 [sampleBC] ("b1") sampleBCCreate 5 sampleBC rfl (by decide),
   sparse_merge_law.2 [sampleSupplement] ("s1") sampleSupplementCreate 5
      sampleSupplement rfl (by decide)⟩

/-- C5: creating a record from a valid payload and getting it back by
the identifier the create returned yields the stored shape whose
client-settable fields equal the payload's fields exactly, with the
server-assigned identifier and both timestamps added. -/
theorem create_get_round_trip (coll : List BodyComposition) (freshId : String)
    (tc tu : Nat) (data : BodyCompositionCreate)
    (hfresh : ∀ r ∈ coll, r.id ≠ freshId) :
    ∀ created coll2,
      create_body_composition coll freshId tc tu data = (created, coll2) →
        get_body_composition coll2 created.id = .ok created
        ∧ created.date = data.date
        ∧ created.weight = data.weight
        ∧ created.body_fat_percentage = data.body_fat_percentage.join
        ∧ created.muscle_mass = data.muscle_mass.join
        ∧ created.water_percentage = data.water_percentage.join
        ∧ created.bone_mass = data.bone_mass.join
        ∧ created.bmi = data.bmi.join
        ∧ created.notes = data.notes.join
        ∧ created.id = freshId
        ∧ created.created_at = tc
        ∧ created.updated_at = tu := by
  intro created coll2 h
  simp only [create_body_composition] at h
  injection h with h1 h2
  subst h1
  subst h2
  exact ⟨get_bc_append coll _ (fun x hx => hfresh x hx), rfl, rfl, rfl, rfl, rfl, rfl,
    rfl, rfl, rfl, rfl, rfl⟩

/-- Witness for C5: round trip of `sampleBCCreate` through an empty
collection. -/
theorem create_get_round_trip_witness :
    get_body_composition [sampleBCStored] sampleBCStored.id = .ok sampleBCStored
    ∧ sampleBCStored.date = sampleBCCreate.date
    ∧ sampleBCStored.weight = sampleBCCreate.weight
    ∧ sampleBCStored.body_fat_percentage = sampleBCCreate.body_fat_percentage.join
    ∧ sampleBCStored.muscle_mass = sampleBCCreate.muscle_mass.join
    ∧ sampleBCStored.water_percentage = sampleBCCreate.water_percentage.join
    ∧ sampleBCStored.bone_mass = sampleBCCreate.bone_mass.join
    ∧ sampleBCStored.bmi = sampleBCCreate.bmi.join
    ∧ sampleBCStored.notes = sampleBCCreate.notes.join
    ∧ sampleBCStored.id = "b2"
    ∧ sampleBCStored.created_at = 3
    ∧ sampleBCStored.updated_at = 4 :=
  create_get_round_trip [] ("b2") 3 4 sampleBCCreate (by simp)
    sampleBCStored [sampleBCStored] rfl

/-- C6: a listing returns at most `limit` records — exactly
`min limit (length - skip)` — after skipping the first `skip` records
of the collection's ordering, which is date-descending for body
composition (likewise the other time-series entities) and name-ascending
for supplements (likewise peptides), with defaults `limit = 100`,
`skip = 0`; with 150 records stored, the default page holds exactly 100
records and the `skip = 100` page the remaining 50, the two pages
together being the whole sorted collection. -/
theorem paginated_listing :
    (∀ (coll : List BodyComposition) (limit skip : Nat),
        (get_body_compositions coll limit skip).length = min limit (coll.length - skip)
        ∧ (get_body_compositions coll limit skip).Pairwise (fun a b => b.date ≤ a.date))
    ∧ (∀ (coll : List Supplement) (limit skip : Nat),
        (get_supplements coll limit skip).length = min limit (coll.length - skip)
        ∧ (get_supplements coll limit skip).Pairwise (fun a b => a.name ≤ b.name))
    ∧ (∀ coll : List BodyComposition, coll.length = 150 →
        (get_body_compositions coll).length = 100
        ∧ (get_body_compositions coll 100 100).length = 50
        ∧ get_body_compositions coll ++ get_body_compositions coll 100 100
            = coll.mergeSort fun a b => decide (b.date ≤ a.date)) := by
  refine ⟨fun coll limit skip => ⟨?_, ?_⟩, fun coll limit skip => ⟨?_, ?_⟩, ?_⟩
  · simp [get_body_compositions]
  · exact (pairwise_sorted_paginated (fun a b : BodyComposition => decide (b.date ≤ a.date))
      (fun a b c hab hbc => by simp at *; omega)
      (fun a b => by simp [Int.le_total]) coll limit skip).imp (fun h => by simpa using h)
  · simp [get_supplements]
  · exact (pairwise_sorted_paginated (fun a b : Supplement => decide (a.name ≤ b.name))
      (fun a b c hab hbc => by
        simp at *
        exact le_trans hab hbc)
      (fun a b => by simpa using le_total a.name b.name) coll limit skip).imp
      (fun h => by simpa using h)
  · intro coll h
    refine ⟨by simp [get_body_compositions, h], by simp [get_body_compositions, h], ?_⟩
    have h2 : ((coll.mergeSort fun a b => decide (b.date ≤ a.date)).drop 100).take 100
        = (coll.mergeSort fun a b => decide (b.date ≤ a.date)).drop 100 :=
      List.take_of_length_le (by simp [h])
    simp only [get_body_compositions]
    rw [List.drop_zero, h2, List.take_append_drop]

/-- Witness for C6: single-record listings and a 150-record collection
split into pages of 100 and 50. -/
theorem paginated_listing_witness :
    ((get_body_compositions [sampleBC] 100 0).length = min 100 ([sampleBC].length - 0)
      ∧ (get_body_compositions [sampleBC] 100 0).Pairwise (fun a b => b.date ≤ a.date))
    ∧ ((get_supplements [sampleSupplement] 100 0).length
          = min 100 ([sampleSupplement].length - 0)
      ∧ (get_supplements [sampleSupplement] 100 0).Pairwise (fun a b => a.name ≤ b.name))
    ∧ ((get_body_compositions (List.replicate 150 sampleBC)).length = 100
      ∧ (get_body_compositions (List.replicate 150 sampleBC) 100 100).length = 50
      ∧ get_body_compositions (List.replicate 150 sampleBC)
            ++ get_body_compositions (List.replicate 150 sampleBC) 100 100
          = (List.replicate 150 sampleBC).mergeSort fun a b => decide (b.date ≤ a.date)) :=
  ⟨paginated_listing.1 [sampleBC] 100 0,
   paginated_listing.2.1 [sampleSupplement] 100 0,
   paginated_listing.2.2 (List.replicate 150 sampleBC) (by simp)⟩

/-- C7: getting an identifier that matches no document fails with the
404 not-found result, and that is the get operation's only error:
every error a get can return is the 404 not-found one (never a
validation error, and a missing record is never an empty success);
shown for the two cited entity types. -/
theorem get_not_found (coll : List BodyComposition) (collP : List Peptide)
    (composition_id peptide_id : String)
    (h1 : ∀ r ∈ coll, r.id ≠ composition_id)
    (h2 : ∀ r ∈ collP, r.id ≠ peptide_id) :
    get_body_composition coll composition_id
        = .error ⟨404, ["Body composition not found"]⟩
    ∧ get_peptide collP peptide_id = .error ⟨404, ["Peptide not found"]⟩
    ∧ (∀ (c2 : List BodyComposition) (i2 : String) (e : HTTPException),
        get_body_composition c2 i2 = .error e → e = ⟨404, ["Body composition not found"]⟩)
    ∧ (∀ (c2 : List Peptide) (i2 : String) (e : HTTPException),
        get_peptide c2 i2 = .error e → e = ⟨404, ["Peptide not found"]⟩) := by
  have f1 : coll.find? (fun r => r.id == composition_id) = none :=
    List.find?_eq_none.2 (fun x hx => by simp [h1 x hx])
  have f2 : collP.find? (fun r => r.id == peptide_id) = none :=
    List.find?_eq_none.2 (fun x hx => by simp [h2 x hx])
  refine ⟨by simp [get_body_composition, f1], by simp [get_peptide, f2], ?_, ?_⟩
  · intro c2 i2 e he
    simp only [get_body_composition] at he
    cases hf : c2.find? (fun r => r.id == i2) with
    | none =>
        rw [hf] at he
        injection he with h3
        exact h3.symm
    | some r =>
        rw [hf] at he
        exact absurd he (by simp)
  · intro c2 i2 e he
    simp only [get_peptide] at he
    cases hf : c2.find? (fun r => r.id == i2) with
    | none =>
        rw [hf] at he
        injection he with h3
        exact h3.symm
    | some r =>
        rw [hf] at he
        exact absurd he (by simp)

/-- Witness for C7 at an identifier present in neither collection. -/
theorem get_not_found_witness :
    get_body_composition [sampleBC] ("nonexistent-id")
        = .error ⟨404, ["Body composition not found"]⟩
    ∧ get_peptide [samplePeptide] ("nonexistent-id")
        = .error ⟨404, ["Peptide not found"]⟩
    ∧ (⟨404, ["Body composition not found"]⟩ : HTTPException)
        = ⟨404, ["Body composition not found"]⟩
    ∧ (⟨404, ["Peptide not found"]⟩ : HTTPException) = ⟨404, ["Peptide not found"]⟩ :=
  let h := get_not_found [sampleBC] [samplePeptide] ("nonexistent-id")
    ("nonexistent-id") (by decide) (by decide)
  ⟨h.1, h.2.1, h.2.2.1 [] ("x") _ rfl, h.2.2.2 [] ("x") _ rfl⟩

/-- C8: delete is not idempotent — deleting an identifier that matches
zero documents (in particular an already-deleted one) yields the 404
not-found failure, while deleting an existing record (identifiers being
unique per collection) succeeds with the acknowledgment, removes the
record, and makes a second delete of the same identifier fail with
404. -/
theorem delete_not_idempotent (coll : List BodyComposition) (composition_id : String) :
    ((∀ r ∈ coll, r.id ≠ composition_id) →
        delete_body_composition coll composition_id
          = .error ⟨404, ["Body composition not found"]⟩)
    ∧ ((coll.map (fun r => r.id)).Nodup →
        ∀ r ∈ coll, r.id = composition_id →
          ∃ coll2,
            delete_body_composition coll composition_id
                = .ok ("Body composition deleted successfully", coll2)
            ∧ (∀ x ∈ coll2, x.id ≠ composition_id)
            ∧ delete_body_composition coll2 composition_id
                = .error ⟨404, ["Body composition not found"]⟩) := by
  constructor
  · intro h
    have hany : coll.any (fun r => r.id == composition_id) = false :=
      List.any_eq_false.2 (fun x hx => by simp [h x hx])
    simp [delete_body_composition, hany]
  · intro hnd r hr hid
    have hany : coll.any (fun x => x.id == composition_id) = true :=
      List.any_eq_true.2 ⟨r, hr, by simp [hid]⟩
    have herad : ∀ y ∈ deleteFirst (fun x : BodyComposition => x.id == composition_id) coll,
        y.id ≠ composition_id :=
      deleteFirst_eradicates (fun x : BodyComposition => x.id) composition_id coll hnd r hr hid
    refine ⟨deleteFirst (fun x => x.id == composition_id) coll, ?_, herad, ?_⟩
    · simp [delete_body_composition, hany]
    · have hany2 : (deleteFirst (fun x : BodyComposition => x.id == composition_id) coll).any
          (fun x => x.id == composition_id) = false :=
        List.any_eq_false.2 (fun x hx => by simp [herad x hx])
      simp [delete_body_composition, hany2]

/-- Witness for C8: a 404 on an empty collection and a
delete-then-redelete on a one-record collection. -/
theorem delete_not_idempotent_witness :
    delete_body_composition [] ("b1") = .error ⟨404, ["Body composition not found"]⟩
    ∧ ∃ coll2,
        delete_body_composition [sampleBC] ("b1")
            = .ok ("Body composition deleted successfully", coll2)
        ∧ (∀ x ∈ coll2, x.id ≠ "b1")
        ∧ delete_body_composition coll2 ("b1")
            = .error ⟨404, ["Body composition not found"]⟩ :=
  ⟨(delete_not_idempotent [] ("b1")).1 (by simp),
   (delete_not_idempotent [sampleBC] ("b1")).2 (by simp) sampleBC (by simp) rfl⟩

/-- C9: both timestamps are set at creation from two successive clock
reads, `created_at` is never modified by an update, every successful
update stamps `updated_at` with the current clock read, and under clock
monotonicity `updated_at ≥ created_at` holds after creation and after
every successful update. -/
theorem timestamps_invariant :
    (∀ (coll : List BodyComposition) (freshId : String) (tc tu : Nat)
        (data : BodyCompositionCreate), tc ≤ tu →
        (create_body_composition coll freshId tc tu data).1.created_at = tc
        ∧ (create_body_composition coll freshId tc tu data).1.updated_at = tu
        ∧ (create_body_composition coll freshId tc tu data).1.created_at
            ≤ (create_body_composition coll freshId tc tu data).1.updated_at)
    ∧ (∀ (coll : List BodyComposition) (composition_id : String)
        (data : BodyCompositionCreate) (now : Nat) (old updated : BodyComposition)
        (coll2 : List BodyComposition),
        coll.find? (fun r => r.id == composition_id) = some old →
        update_body_composition coll composition_id data now = .ok (updated, coll2) →
          updated.created_at = old.created_at
          ∧ updated.updated_at = now
          ∧ (old.created_at ≤ now → updated.created_at ≤ updated.updated_at)) := by
  constructor
  · intro coll freshId tc tu data h
    exact ⟨rfl, rfl, h⟩
  · intro coll composition_id data now old updated coll2 hfind h
    simp only [update_body_composition, hfind] at h
    obtain ⟨h1, h2⟩ := by simpa using h
    subst h1
    subst h2
    exact ⟨rfl, rfl, fun hm => hm⟩

/-- Witness for C9 at a fresh creation and a one-record update. -/
theorem timestamps_invariant_witness :
    ((create_body_composition [] ("b3") 1 2 sampleBCCreate).1.created_at = 1
      ∧ (create_body_composition [] ("b3") 1 2 sampleBCCreate).1.updated_at = 2
      ∧ (create_body_composition [] ("b3") 1 2 sampleBCCreate).1.created_at
          ≤ (create_body_composition [] ("b3") 1 2 sampleBCCreate).1.updated_at)
    ∧ (sampleBCUpdated.created_at = sampleBC.created_at
      ∧ sampleBCUpdated.updated_at = 7
      ∧ (sampleBC.created_at ≤ 7 →
          sampleBCUpdated.created_at ≤ sampleBCUpdated.updated_at)) :=
  ⟨timestamps_invariant.1 [] ("b3") 1 2 sampleBCCreate (by decide),
   timestamps_invariant.2 [sampleBC] ("b1") sampleBCCreate 7 sampleBC
     sampleBCUpdated [sampleBCUpdated] rfl rfl⟩

/-- C10: an update payload is validated against the full create input
shape, so omitting a required field is rejected as a validation failure
whose outcome does not depend on the collection at all (hence before —
and regardless of — the lookup of the existing record), and every
payload that validates necessarily carries all required fields; sparse
merge is only possible over the optional fields. -/
theorem update_validates_full_create_shape :
    (∀ raw : BodyCompositionRaw, raw.date = none ∨ raw.weight = none →
        raw.missingFieldErrors ≠ []
        ∧ ∀ (coll : List BodyComposition) (composition_id : String) (now : Nat),
            update_body_composition_endpoint coll composition_id raw now
              = .error (validationFailure raw.missingFieldErrors))
    ∧ (∀ rawP : PeptideCreateRaw, rawP.vial_amount_mg = none →
        rawP.missingFieldErrors ≠ []
        ∧ ∀ (collP : List Peptide) (peptide_id : String) (now : Nat),
            update_peptide_endpoint collP peptide_id rawP now
              = .error (validationFailure rawP.missingFieldErrors))
    ∧ (∀ (raw : BodyCompositionRaw) (data : BodyCompositionCreate),
        raw.parseCreate = .ok data →
          raw.date = some data.date ∧ raw.weight = some data.weight) := by
  refine ⟨?_, ?_, ?_⟩
  · intro raw h
    have hp : raw.parseCreate = .error raw.missingFieldErrors := by
      cases hd : raw.date with
      | none =>
          cases hw : raw.weight with
          | none => simp [BodyCompositionRaw.parseCreate, hd, hw]
          | some w2 => simp [BodyCompositionRaw.parseCreate, hd, hw]
      | some d2 =>
          cases hw : raw.weight with
          | none => simp [BodyCompositionRaw.parseCreate, hd, hw]
          | some w2 =>
              rcases h with h | h
              · rw [hd] at h; exact absurd h (by simp)
              · rw [hw] at h; exact absurd h (by simp)
    refine ⟨?_, fun coll composition_id now => ?_⟩
    · rcases h with h | h <;> simp [BodyCompositionRaw.missingFieldErrors, h]
    · simp [update_body_composition_endpoint, hp]
  · intro rawP h
    obtain ⟨n, v, b, d, ns, sc, nt, sd, ed⟩ := rawP
    have hv : v = none := h
    subst hv
    constructor
    · simp [PeptideCreateRaw.missingFieldErrors]
    · intro collP peptide_id now
      have hp : PeptideCreateRaw.parseCreate ⟨n, none, b, d, ns, sc, nt, sd, ed⟩
          = .error (PeptideCreateRaw.missingFieldErrors ⟨n, none, b, d, ns, sc, nt, sd, ed⟩) := by
        cases n <;> cases b <;> cases d <;> cases ns <;> cases sc <;>
          simp [PeptideCreateRaw.parseCreate]
      simp [update_peptide_endpoint, hp]
  · intro raw data h
    cases hd : raw.date with
    | none => rw [BodyCompositionRaw.parseCreate] at h; simp [hd] at h
    | some d2 =>
        cases hw : raw.weight with
        | none => rw [BodyCompositionRaw.parseCreate] at h; simp [hd, hw] at h
        | some w2 =>
            rw [BodyCompositionRaw.parseCreate] at h
            simp only [hd, hw] at h
            obtain h1 := by simpa using h
            subst h1
            exact ⟨rfl, rfl⟩

/-- Witness for C10: a payload missing `date`, a peptide payload
missing `vial_amount_mg`, and a fully validated payload. -/
theorem update_validates_full_create_shape_witness :
    (rawMissingDate.missingFieldErrors ≠ []
      ∧ update_body_composition_endpoint [sampleBC] ("b1") rawMissingDate 9
          = .error (validationFailure rawMissingDate.missingFieldErrors))
    ∧ (rawPeptideMissingVial.missingFieldErrors ≠ []
      ∧ update_peptide_endpoint [samplePeptide] ("p1") rawPeptideMissingVial 9
          = .error (validationFailure rawPeptideMissingVial.missingFieldErrors))
    ∧ (sampleBCRawFull.date = some sampleBCParsedCreate.date
      ∧ sampleBCRawFull.weight = some sampleBCParsedCreate.weight) :=
  ⟨⟨(update_validates_full_create_shape.1 rawMissingDate (Or.inl rfl)).1,
    (update_validates_full_create_shape.1 rawMissingDate (Or.inl rfl)).2 [sampleBC] ("b1") 9⟩,
   ⟨(update_validates_full_create_shape.2.1 rawPeptideMissingVial rfl).1,
    (update_validates_full_create_shape.2.1 rawPeptideMissingVial rfl).2
      [samplePeptide] ("p1") 9⟩,
   update_validates_full_create_shape.2.2 sampleBCRawFull sampleBCParsedCreate rfl⟩

end HealthTrack
